import Mathlib

/-!
Verification of the cube-partner-training static documentation site.

The embedding covers the two code artifacts of the repository:
the homepage feature-list component
(src/components/HomepageFeatures/index.tsx) and the site configuration
record (docusaurus.config.ts), together with spec-modelled parts of the
external site generator output (docs routes, sidebar, footer rendering)
where the deciding files are not part of the provided sources.
-/

namespace CubeTraining

/-! ## Feature list component (src/components/HomepageFeatures/index.tsx) -/

/-- One entry of the feature list: title, icon reference and description
text, mirroring the FeatureItem type of the component. The JSX
description fragment is embedded as its text content. -/
structure FeatureItem where
  title : String
  svg : String
  description : String
deriving Repr, DecidableEq

/-- The fixed FeatureList array of the component: three entries, declared
in this order. -/
def FeatureList : List FeatureItem :=
  [ { title := "Hands-On Learning"
    , svg := "@site/static/img/undraw_docusaurus_mountain.svg"
    , description := "Learn by building with real TPC-H data and DuckDB. Each module includes practical exercises that build on previous knowledge, creating a complete analytics solution from foundation to advanced patterns." }
  , { title := "Partner-Focused Content"
    , svg := "@site/static/img/undraw_docusaurus_tree.svg"
    , description := "Designed specifically for systems integrators and consultants. Learn to position Cube Cloud, implement client solutions, and build a successful analytics practice with enterprise-grade patterns." }
  , { title := "Production Ready"
    , svg := "@site/static/img/undraw_docusaurus_react.svg"
    , description := "Master security, performance optimization, and troubleshooting. Connect to BI tools, build custom applications, and implement sophisticated analytics patterns your clients will love." } ]

/-- The visual block produced by the Feature sub-component for one entry:
the key attached during the map, the icon, the heading text and the
paragraph text. -/
structure FeatureBlock where
  key : Nat
  svg : String
  title : String
  description : String
deriving Repr, DecidableEq

/-- The Feature sub-component: given its key and the spread props of one
entry, it produces one block carrying the icon, the title as heading and
the description as paragraph, all copied verbatim. -/
def Feature (key : Nat) (f : FeatureItem) : FeatureBlock :=
  { key := key, svg := f.svg, title := f.title, description := f.description }

/-- The body of HomepageFeatures applied to a feature list: it maps over
the list with the position as key (FeatureList.map with (props, idx)). -/
def homepageFeatures (fl : List FeatureItem) : List FeatureBlock :=
  fl.enum.map (fun p => Feature p.1 p.2)

/-- The HomepageFeatures component itself: it takes no props and renders
the fixed FeatureList. -/
def renderHomepageFeatures : List FeatureBlock :=
  homepageFeatures FeatureList

/-- One render invocation as a state transformer: the component reads the
feature list and emits the blocks; the source declares FeatureList with
const and never writes to it, so the state is returned unchanged. -/
def renderOnce (s : List FeatureItem) : List FeatureBlock × List FeatureItem :=
  (homepageFeatures s, s)

/-- The outputs of n successive render invocations, threading the
component state from one invocation to the next. -/
def renderTrace : Nat → List FeatureItem → List (List FeatureBlock)
  | 0, _ => []
  | n + 1, s => (renderOnce s).1 :: renderTrace n (renderOnce s).2

theorem renderTrace_const (n : Nat) (s : List FeatureItem) :
    renderTrace n s = List.replicate n (homepageFeatures s) := by
  induction n with
  | zero => rfl
  | succ n ih => simp [renderTrace, renderOnce, ih, List.replicate]

/-! ## Site configuration record (docusaurus.config.ts) -/

/-- The navbar logo of the configuration. -/
structure NavbarLogo where
  alt : String
  src : String
deriving Repr, DecidableEq

/-- One navbar item of the configuration. The docSidebar item carries a
kind and a sidebar id and no explicit link target; the link items carry
an href. Absent fields are none, as in the source object literals. -/
structure NavbarItem where
  kind : Option String := none
  sidebarId : Option String := none
  toPath : Option String := none
  href : Option String := none
  label : String
  position : Option String := none
deriving Repr, DecidableEq

/-- The navbar of the configuration. -/
structure Navbar where
  title : String
  logo : NavbarLogo
  items : List NavbarItem
deriving Repr, DecidableEq

/-- One footer link of the configuration: a label and either an internal
target (the to field, here toPath) or an external href, never declared
with both in the source. -/
structure FooterLink where
  label : String
  toPath : Option String := none
  href : Option String := none
deriving Repr, DecidableEq

/-- One footer link group of the configuration: a title and its ordered
items. -/
structure FooterGroup where
  title : String
  items : List FooterLink
deriving Repr, DecidableEq

/-- The footer of the configuration. -/
structure Footer where
  style : String
  links : List FooterGroup
  copyright : String
deriving Repr, DecidableEq

/-- The prism code-highlighting themes of the configuration. -/
structure PrismConfig where
  theme : String
  darkTheme : String
deriving Repr, DecidableEq

/-- The themeConfig section of the configuration. -/
structure ThemeConfig where
  image : String
  navbar : Navbar
  footer : Footer
  prism : PrismConfig
deriving Repr, DecidableEq

/-- The i18n section of the configuration. -/
structure I18n where
  defaultLocale : String
  locales : List String
deriving Repr, DecidableEq

/-- The docs options of the classic preset. -/
structure DocsOptions where
  sidebarPath : String
  editUrl : String
deriving Repr, DecidableEq

/-- The top-level configuration record exported by docusaurus.config.ts. -/
structure Config where
  title : String
  tagline : String
  favicon : String
  url : String
  baseUrl : String
  organizationName : String
  projectName : String
  onBrokenLinks : String
  onBrokenMarkdownLinks : String
  i18n : I18n
  docs : DocsOptions
  themeConfig : ThemeConfig
deriving Repr, DecidableEq

/-- Decimal rendering of a natural number, embedding the string conversion
the template literal applies to getFullYear(): most significant digit
first, and 0 renders as the single digit 0. -/
def natToDecimal (n : Nat) : String :=
  if n = 0 then "0"
  else String.mk (((Nat.digits 10 n).reverse).map Nat.digitChar)

/-- The copyright template literal of the footer, as a function of the
year the Date object reports at evaluation time. -/
def copyrightText (year : Nat) : String :=
  "Copyright © " ++ natToDecimal year ++ " Cube Dev, Inc. Built with Docusaurus."

/-- The configuration record, as a function of the current year read from
the system clock while the config module evaluates; the year reaches only
the footer copyright string. Every value is the literal of the source. -/
def config (year : Nat) : Config :=
  { title := "Cube Partner Training"
  , tagline := "Master the semantic layer for analytics success"
  , favicon := "img/favicon.ico"
  , url := "https://cube-partner-training.github.io"
  , baseUrl := "/cube-partner-training/"
  , organizationName := "cube-partner-training"
  , projectName := "cube-partner-training"
  , onBrokenLinks := "throw"
  , onBrokenMarkdownLinks := "warn"
  , i18n := { defaultLocale := "en", locales := ["en"] }
  , docs :=
    { sidebarPath := "./sidebars.ts"
    , editUrl := "https://github.com/cube-partner-training/cube-partner-training/tree/main/" }
  , themeConfig :=
    { image := "img/docusaurus-social-card.jpg"
    , navbar :=
      { title := "Cube Partner Training"
      , logo := { alt := "Cube Logo", src := "img/logo.svg" }
      , items :=
        [ { kind := some "docSidebar", sidebarId := some "tutorialSidebar"
          , position := some "left", label := "Training Modules" }
        , { href := some "https://cube.dev", label := "Cube.dev"
          , position := some "right" }
        , { href := some "https://cubecloud.dev", label := "Cube Cloud"
          , position := some "right" }
        , { href := some "https://github.com/cube-js/cube", label := "GitHub"
          , position := some "right" } ] }
    , footer :=
      { style := "dark"
      , links :=
        [ { title := "Training"
          , items :=
            [ { label := "Getting Started", toPath := some "/docs/intro" }
            , { label := "Module 1: Foundation"
              , toPath := some "/docs/module-1-foundation" }
            , { label := "Module 2: Getting Started"
              , toPath := some "/docs/module-2-getting-started" } ] }
        , { title := "Cube Resources"
          , items :=
            [ { label := "Cube.dev", href := some "https://cube.dev" }
            , { label := "Cube Cloud", href := some "https://cubecloud.dev" }
            , { label := "Documentation", href := some "https://cube.dev/docs" }
            , { label := "Community Slack", href := some "https://cube.dev/slack" } ] }
        , { title := "Support"
          , items :=
            [ { label := "GitHub Issues"
              , href := some "https://github.com/cube-js/cube/issues" }
            , { label := "Stack Overflow"
              , href := some "https://stackoverflow.com/questions/tagged/cube.js" }
            , { label := "Partner Program", href := some "https://cube.dev/partners" } ] } ]
      , copyright := copyrightText year }
    , prism := { theme := "github", darkTheme := "dracula" } } }

/-- Claim C1: rendering HomepageFeatures produces exactly three visual
blocks, one per entry of the fixed FeatureList in declaration order, and
each block carries the declared title and description verbatim. -/
theorem homepage_features_blocks :
    FeatureList.length = 3 ∧
    renderHomepageFeatures.length = FeatureList.length ∧
    renderHomepageFeatures.map (fun b => b.title)
      = FeatureList.map (fun f => f.title) ∧
    renderHomepageFeatures.map (fun b => b.description)
      = FeatureList.map (fun f => f.description) :=
  ⟨rfl, rfl, rfl, rfl⟩

/-- Claim C7: iteration order is preserved and each rendered entry is
keyed by its position, so the three entries receive the distinct stable
keys 0, 1, 2 in order. -/
theorem homepage_features_keys :
    renderHomepageFeatures.map (fun b => b.key) = [0, 1, 2] ∧
    (renderHomepageFeatures.map (fun b => b.key)).Nodup ∧
    renderHomepageFeatures.map (fun b => (b.key, b.title))
      = FeatureList.enum.map (fun p => (p.1, p.2.title)) :=
  ⟨rfl, by decide, rfl⟩

/-- Claim C4: rendering the feature list is pure and idempotent: a trace
of any number of invocations, with no varying input, repeats the very
same output, which consists of the same three blocks every time. -/
theorem homepage_features_idempotent (n : Nat) :
    renderTrace n FeatureList = List.replicate n renderHomepageFeatures ∧
    renderHomepageFeatures.length = 3 ∧
    ∀ out ∈ renderTrace n FeatureList, out = renderHomepageFeatures := by
  refine ⟨renderTrace_const n FeatureList, rfl, ?_⟩
  intro out hout
  rw [renderTrace_const n FeatureList] at hout
  exact List.eq_of_mem_replicate hout

/-- Witness for the idempotence theorem: the first output of a trace of
two invocations is a member of the trace and equals the rendered blocks. -/
theorem homepage_features_idempotent_witness :
    homepageFeatures FeatureList ∈ renderTrace 2 FeatureList ∧
    homepageFeatures FeatureList = renderHomepageFeatures :=
  ⟨List.Mem.head _,
    (homepage_features_idempotent 2).2.2 (homepageFeatures FeatureList)
      (List.Mem.head _)⟩

/-- Claim C3: the configuration sets the broken-link policy to the
failing value throw for internal links and to the warning value warn for
markdown links, for any evaluation year. -/
theorem broken_link_policy (year : Nat) :
    (config year).onBrokenLinks = "throw" ∧
    (config year).onBrokenMarkdownLinks = "warn" :=
  ⟨rfl, rfl⟩

/-! ## Determinism of the configuration up to the copyright year -/

theorem digitChar_inj_below_ten :
    ∀ a < 10, ∀ b < 10, Nat.digitChar a = Nat.digitChar b → a = b := by
  decide

theorem map_digitChar_inj :
    ∀ l1 l2 : List Nat, (∀ x ∈ l1, x < 10) → (∀ x ∈ l2, x < 10) →
      l1.map Nat.digitChar = l2.map Nat.digitChar → l1 = l2 := by
  intro l1
  induction l1 with
  | nil =>
    intro l2 _ _ h
    cases l2 with
    | nil => rfl
    | cons b t2 => simp at h
  | cons a t ih =>
    intro l2 h1 h2 h
    cases l2 with
    | nil => simp at h
    | cons b t2 =>
      simp only [List.map_cons, List.cons.injEq] at h
      have ha : a < 10 := h1 a (List.mem_cons_self a t)
      have hb : b < 10 := h2 b (List.mem_cons_self b t2)
      have hab : a = b := digitChar_inj_below_ten a ha b hb h.1
      have ht : t = t2 :=
        ih t2 (fun x hx => h1 x (List.mem_cons_of_mem a hx))
          (fun x hx => h2 x (List.mem_cons_of_mem b hx)) h.2
      rw [hab, ht]

theorem digits_reverse_lt_ten (n : Nat) :
    ∀ x ∈ (Nat.digits 10 n).reverse, x < 10 := by
  intro x hx
  exact Nat.digits_lt_base (by norm_num) (List.mem_reverse.mp hx)

theorem natToDecimal_injective : Function.Injective natToDecimal := by
  intro m n h
  by_cases hm : m = 0 <;> by_cases hn : n = 0
  · exact hm.trans hn.symm
  · exfalso
    apply hn
    rw [natToDecimal, natToDecimal, if_pos hm, if_neg hn] at h
    have hd := congrArg String.data h
    have h0 : ([0].map Nat.digitChar) = ((Nat.digits 10 n).reverse).map Nat.digitChar := hd
    have hlists : [0] = (Nat.digits 10 n).reverse :=
      map_digitChar_inj [0] ((Nat.digits 10 n).reverse) (by decide)
        (digits_reverse_lt_ten n) h0
    have hdig : Nat.digits 10 n = [0] := by
      have := congrArg List.reverse hlists
      simpa using this.symm
    have := Nat.ofDigits_digits 10 n
    rw [hdig] at this
    simpa [Nat.ofDigits] using this.symm
  · exfalso
    apply hm
    rw [natToDecimal, natToDecimal, if_neg hm, if_pos hn] at h
    have hd := congrArg String.data h
    have h0 : ((Nat.digits 10 m).reverse).map Nat.digitChar = ([0].map Nat.digitChar) := hd
    have hlists : (Nat.digits 10 m).reverse = [0] :=
      map_digitChar_inj ((Nat.digits 10 m).reverse) [0] (digits_reverse_lt_ten m)
        (by decide) h0
    have hdig : Nat.digits 10 m = [0] := by
      have := congrArg List.reverse hlists
      simpa using this
    have := Nat.ofDigits_digits 10 m
    rw [hdig] at this
    simpa [Nat.ofDigits] using this.symm
  · rw [natToDecimal, natToDecimal, if_neg hm, if_neg hn] at h
    have hd := congrArg String.data h
    have hlists : (Nat.digits 10 m).reverse = (Nat.digits 10 n).reverse :=
      map_digitChar_inj ((Nat.digits 10 m).reverse) ((Nat.digits 10 n).reverse)
        (digits_reverse_lt_ten m) (digits_reverse_lt_ten n) hd
    have hdig : Nat.digits 10 m = Nat.digits 10 n := by
      have := congrArg List.reverse hlists
      simpa using this
    exact Nat.digits_inj_iff.mp hdig

/-- The configuration with the copyright string blanked, used to compare
two evaluations on every other field at once. -/
def eraseCopyright (c : Config) : Config :=
  { c with themeConfig :=
    { c.themeConfig with footer := { c.themeConfig.footer with copyright := "" } } }

/-- Claim C10: evaluating the configuration is deterministic in every
field except the footer copyright string, which embeds the clock year:
two evaluations agree on all other fields, and under different years the
copyright strings differ. -/
theorem config_deterministic_except_copyright (y1 y2 : Nat) :
    eraseCopyright (config y1) = eraseCopyright (config y2) ∧
    (y1 ≠ y2 →
      (config y1).themeConfig.footer.copyright
        ≠ (config y2).themeConfig.footer.copyright) := by
  refine ⟨rfl, ?_⟩
  intro hne heq
  have heq2 : copyrightText y1 = copyrightText y2 := heq
  rw [copyrightText, copyrightText] at heq2
  have hd := congrArg String.data heq2
  simp only [String.data_append, List.append_assoc] at hd
  have h2 := List.append_cancel_right (List.append_cancel_left hd)
  exact hne (natToDecimal_injective (String.ext h2))

/-- Witness for the determinism theorem at the concrete years 2024 and
2025. -/
theorem config_deterministic_witness :
    (2024 ≠ 2025) ∧
    eraseCopyright (config 2024) = eraseCopyright (config 2025) ∧
    (config 2024).themeConfig.footer.copyright
      ≠ (config 2025).themeConfig.footer.copyright := by
  have h := config_deterministic_except_copyright 2024 2025
  exact ⟨by decide, h.1, h.2 (by decide)⟩

/-! ## Spec-modelled surroundings: docs tree, sidebar, renderer output -/

/-- Modelled from the spec: the documentation tree of the site, which the
spec describes as a tree covering modules 1 through 7; the markdown
sources of the full tree are not all among the provided files. The routes
follow the module directory names the intro page links, module-1-foundation
through module-7-advanced, together with the intro page itself. -/
def docRoutes : List String :=
  [ "/docs/intro"
  , "/docs/module-1-foundation"
  , "/docs/module-2-getting-started"
  , "/docs/module-3-data-modeling"
  , "/docs/module-4-security"
  , "/docs/module-5-performance"
  , "/docs/module-6-apis-integration"
  , "/docs/module-7-advanced" ]

/-- Modelled from the spec: the sidebar declarations of sidebars.ts, the
file the configuration references through sidebarPath but which is not
among the provided sources; the navbar references the tutorialSidebar id
that file declares. -/
def sidebarIds : List String := ["tutorialSidebar"]

/-- Whether the string s starts with the string p, compared character by
character. -/
def strStarts (p s : String) : Bool :=
  List.isPrefixOf p.data s.data

/-- A well-formed external URL: an absolute https URL with a non-empty
remainder after the scheme. -/
def wellFormedExternalUrl (s : String) : Bool :=
  strStarts "https://" s && decide ("https://".length < s.length)

/-- Resolvability of a navbar entry target: the docSidebar entry resolves
through a declared sidebar id; a link entry resolves through an internal
doc route or a well-formed external URL, and carries exactly one of the
two fields. -/
def navbarItemResolvable (it : NavbarItem) : Bool :=
  match it.kind with
  | some "docSidebar" => sidebarIds.contains (it.sidebarId.getD "")
  | _ =>
    match it.toPath, it.href with
    | some p, none => docRoutes.contains p
    | none, some u => wellFormedExternalUrl u
    | _, _ => false

/-- Resolvability of a footer link target: an internal doc route or a
well-formed external URL, exactly one of the two fields present. -/
def footerLinkResolvable (l : FooterLink) : Bool :=
  match l.toPath, l.href with
  | some p, none => docRoutes.contains p
  | none, some u => wellFormedExternalUrl u
  | _, _ => false

/-- Claim C2: every navbar entry and every footer entry of the
configuration has a non-empty label and a resolvable target: an internal
path among the documentation routes, a sidebar reference to a declared
sidebar, or a well-formed external URL. -/
theorem nav_footer_entries_resolvable (year : Nat) :
    ((config year).themeConfig.navbar.items.all
      (fun it => (!(it.label == "")) && navbarItemResolvable it)) = true ∧
    ((config year).themeConfig.footer.links.all
      (fun g => g.items.all
        (fun l => (!(l.label == "")) && footerLinkResolvable l))) = true := by
  have hn : (config year).themeConfig.navbar.items
      = (config 0).themeConfig.navbar.items := rfl
  have hf : (config year).themeConfig.footer.links
      = (config 0).themeConfig.footer.links := rfl
  rw [hn, hf]
  exact ⟨by decide, by decide⟩

/-- A link entry carries exactly one target field: an internal to path or
an external href, never both and never neither. -/
def exactlyOneTarget (t h : Option String) : Bool :=
  (t.isSome && h.isNone) || (t.isNone && h.isSome)

/-- The shape claim for one link entry: exactly one target, an internal
target starts with /docs/, an external target is an
absolute https URL. -/
def linkEntryShape (t h : Option String) : Bool :=
  exactlyOneTarget t h &&
  (match t with
   | some p => strStarts "/docs/" p
   | none => true) &&
  (match h with
   | some u => strStarts "https://" u
   | none => true)

/-- Claim C9: every link entry among the navbar items and footer groups
carries exactly one kind of target, an internal to path starting with
/docs/ or an external absolute https href, never both. A navbar entry
that carries no target field at all (the docSidebar entry) is not a link
entry; every footer entry is one. -/
theorem link_entries_single_target (year : Nat) :
    ((config year).themeConfig.navbar.items.all
      (fun it => (!(it.toPath.isSome || it.href.isSome))
        || linkEntryShape it.toPath it.href)) = true ∧
    ((config year).themeConfig.footer.links.all
      (fun g => g.items.all
        (fun l => (l.toPath.isSome || l.href.isSome)
          && linkEntryShape l.toPath l.href))) = true := by
  have hn : (config year).themeConfig.navbar.items
      = (config 0).themeConfig.navbar.items := rfl
  have hf : (config year).themeConfig.footer.links
      = (config 0).themeConfig.footer.links := rfl
  rw [hn, hf]
  exact ⟨by decide, by decide⟩

/-- One rendered footer link: its label and its resolved target. -/
structure RenderedFooterLink where
  label : String
  target : String
deriving Repr, DecidableEq

/-- One rendered footer group: its title and its rendered items, in
order. -/
structure RenderedFooterGroup where
  title : String
  items : List RenderedFooterLink
deriving Repr, DecidableEq

/-- Modelled from the spec: the external site generator renders the
configured footer by iterating the link groups in declaration order and,
inside each group, the items in declaration order, emitting each label
with its link target. -/
def renderFooter (f : Footer) : List RenderedFooterGroup :=
  f.links.map (fun g =>
    { title := g.title
    , items := g.items.map (fun l =>
        { label := l.label, target := l.toPath.getD (l.href.getD "") }) })

/-- Claim C5: rendering the footer preserves the declared group order,
Training then Cube Resources then Support, and the declared item order
inside every group; the order-preservation holds for any footer value. -/
theorem footer_order_preserved (year : Nat) :
    (∀ f : Footer,
      (renderFooter f).map (fun g => g.title)
        = f.links.map (fun g => g.title) ∧
      (renderFooter f).map (fun g => g.items.map (fun l => l.label))
        = f.links.map (fun g => g.items.map (fun l => l.label))) ∧
    (renderFooter (config year).themeConfig.footer).map (fun g => g.title)
      = ["Training", "Cube Resources", "Support"] ∧
    (renderFooter (config year).themeConfig.footer).map
        (fun g => g.items.map (fun l => l.label))
      = [ ["Getting Started", "Module 1: Foundation", "Module 2: Getting Started"]
        , ["Cube.dev", "Cube Cloud", "Documentation", "Community Slack"]
        , ["GitHub Issues", "Stack Overflow", "Partner Program"] ] := by
  refine ⟨?_, rfl, rfl⟩
  intro f
  constructor <;> simp [renderFooter, List.map_map, Function.comp]

/-- The rendered static site: homepage feature section, documentation
tree, left sidebar and top navigation bar. -/
structure SiteOutput where
  featureSection : List FeatureBlock
  docTree : List String
  sidebar : List String
  navbarItems : List NavbarItem
deriving Repr, DecidableEq

/-- Modelled from the spec: the build output the external generator
assembles: the feature section rendered by HomepageFeatures, the
documentation tree of doc routes, the left sidebar listing that tree,
and the top navigation bar taken from the configuration. -/
def buildSite (c : Config) : SiteOutput :=
  { featureSection := renderHomepageFeatures
  , docTree := docRoutes
  , sidebar := docRoutes
  , navbarItems := c.themeConfig.navbar.items }

/-- Claim C6: the rendered site output contains a feature section of
three cards and a documentation tree covering modules 1 through 7,
navigable through a left sidebar listing that tree and a top navigation
bar that points both to internal doc pages (its docSidebar entry) and to
external product URLs (its https href entries). -/
theorem site_output_shape (year : Nat) :
    (buildSite (config year)).featureSection.length = 3 ∧
    ([ "/docs/module-1-foundation"
     , "/docs/module-2-getting-started"
     , "/docs/module-3-data-modeling"
     , "/docs/module-4-security"
     , "/docs/module-5-performance"
     , "/docs/module-6-apis-integration"
     , "/docs/module-7-advanced" ].all
       (fun r => (buildSite (config year)).docTree.contains r)) = true ∧
    (buildSite (config year)).sidebar = (buildSite (config year)).docTree ∧
    ((buildSite (config year)).navbarItems.any
       (fun it => it.kind == some "docSidebar")) = true ∧
    ((buildSite (config year)).navbarItems.any
       (fun it => it.href.isSome)) = true ∧
    ((buildSite (config year)).navbarItems.all
       (fun it =>
         match it.href with
         | some u => wellFormedExternalUrl u
         | none => true)) = true := by
  have hb : buildSite (config year) = buildSite (config 0) := rfl
  rw [hb]
  exact ⟨rfl, by decide, rfl, rfl, rfl, by decide⟩

/-! ## Absence of mutation -/

/-- The operations the repository defines over its static data. -/
inductive SiteOp where
  | renderFeatures
  | exportConfig
deriving Repr, DecidableEq

/-- The state the operations can observe: the feature list and the
configuration record, both defined once at source level. -/
structure RepoState where
  featureList : List FeatureItem
  siteConfig : Config
deriving Repr, DecidableEq

/-- The observable output of one operation. -/
inductive SiteOpResult where
  | blocks (bs : List FeatureBlock)
  | exported (c : Config)
deriving Repr, DecidableEq

/-- One operation step: rendering reads the feature list and emits the
blocks, exporting reads and emits the configuration; the source declares
both values with const and contains no assignment to either, so each
step returns the state it received. -/
def applyOp (s : RepoState) : SiteOp → SiteOpResult × RepoState
  | SiteOp.renderFeatures =>
      (SiteOpResult.blocks (homepageFeatures s.featureList), s)
  | SiteOp.exportConfig => (SiteOpResult.exported s.siteConfig, s)

/-- The state after a sequence of operations. -/
def applyOps (s : RepoState) : List SiteOp → RepoState
  | [] => s
  | o :: rest => applyOps (applyOp s o).2 rest

/-- Claim C8: no operation the repository defines mutates the
configuration record or the feature list: after any sequence of
operations the state, and in particular both components, is unchanged. -/
theorem no_mutation (s : RepoState) (ops : List SiteOp) :
    applyOps s ops = s ∧
    (applyOps s ops).featureList = s.featureList ∧
    (applyOps s ops).siteConfig = s.siteConfig := by
  have h : applyOps s ops = s := by
    induction ops generalizing s with
    | nil => rfl
    | cons o rest ih => cases o <;> simp [applyOps, applyOp, ih]
  exact ⟨h, by rw [h], by rw [h]⟩

end CubeTraining
